import Mathlib

/-!
Shallow embedding of `src/polar_h10.py` (class `PolarH10`).

The Python class wraps a BLE client (bleak).  We model:
  * the object state (`device`, `client`, `recording`, `_data_buffer`,
    `_notification_callback`) as a structure `PolarH10`;
  * the BLE side effects (GATT writes, notify subscribe/unsubscribe,
    transport connect/disconnect, the settle sleep, sink invocations) as an
    `Event` trace emitted by each operation, recording the calls made;
  * the outcomes of fallible external calls (transport connect, subscribe,
    unsubscribe, transport disconnect, characteristic writes) as boolean
    environment flags supplied to each operation;
  * Python exceptions that propagate to the caller as an `Option PyError`
    component of the result (`none` = normal return).
Bytes are `Nat` values; `struct.pack "<BB"` is modelled by `pack_BB`,
which fails (as `struct.pack` raises) outside `0 ≤ v < 256`.
-/

namespace PolarSpec

/-- Event trace entry: one external call made by the code.  Events record
the calls issued (a failed call still appears: the call happened and then
raised). -/
inductive Event where
  | writeGatt (uuid : String) (payload : List Nat)
  | sleep
  | startNotify (uuid : String)
  | stopNotify (uuid : String)
  | clientConnect
  | clientDisconnect
  | sinkCall (data : List Nat)
deriving Repr, DecidableEq

/-- Errors that propagate to the caller as Python exceptions. -/
inductive PyError where
  | connectionError (msg : String)
  | bleError (msg : String)
  | structError
deriving Repr, DecidableEq

/-- A `bleak.BLEDevice`: only the advertised name matters to this code
(`device.name` is `Optional[str]`). -/
structure BLEDevice where
  name : Option String
deriving Repr, DecidableEq

/-- A `bleak.BleakClient` as this code observes it: whether the GATT link
is up (`is_connected`) and whether the PMD data notification subscription
taken out by `start_notify` is active. -/
structure BleakClient where
  connected : Bool
  notifying : Bool
deriving Repr, DecidableEq

/-- State of a `PolarH10` instance (`__init__`, lines 29-34).
`notification_callback` records whether a sink was registered via
`set_notification_callback`; its invocations appear as `Event.sinkCall`. -/
structure PolarH10 where
  device : Option BLEDevice
  client : Option BleakClient
  recording : Bool
  data_buffer : List Nat
  notification_callback : Bool
deriving Repr, DecidableEq

namespace PolarH10

/-- UUID constant `PMD_CONTROL` (line 15). -/
def PMD_CONTROL : String := "FB005C81-02E7-F387-1CAD-8ACD2D8DF0C8"

/-- UUID constant `PMD_DATA` (line 16). -/
def PMD_DATA : String := "FB005C82-02E7-F387-1CAD-8ACD2D8DF0C8"

/-- PMD control point command bytes (lines 19-21). -/
def REQUEST_MEASUREMENT_SETTINGS : Nat := 0x01

def START_MEASUREMENT : Nat := 0x02

def STOP_MEASUREMENT : Nat := 0x03

/-- Measurement type bytes (lines 24-27). -/
def ECG_MEASUREMENT : Nat := 0x00

def PPG_MEASUREMENT : Nat := 0x01

def ACC_MEASUREMENT : Nat := 0x02

def HR_MEASUREMENT : Nat := 0x03

/-- Fresh instance, `PolarH10()` (lines 29-34). -/
def init : PolarH10 :=
  { device := none, client := none, recording := false
    data_buffer := [], notification_callback := false }

/-- The guard `self.client and self.client.is_connected` used by
`start_recording` and `stop_recording` (lines 97, 118) and the
`self.client.is_connected` test in `disconnect` (line 82). -/
def isConnected (s : PolarH10) : Bool :=
  match s.client with
  | none => false
  | some c => c.connected

/-- Source lines 36-41, `notification_handler`: append `data` to
`self._data_buffer`, then call the registered sink, if any, with the same
data.  Returns the new state and the sink-call events. -/
def notification_handler (s : PolarH10) (data : List Nat) :
    PolarH10 × List Event :=
  ({ s with data_buffer := s.data_buffer ++ data },
    if s.notification_callback then [Event.sinkCall data] else [])

/-- Source lines 135-137, `set_notification_callback`. -/
def set_notification_callback (s : PolarH10) : PolarH10 :=
  { s with notification_callback := true }

/-- Source lines 129-133, `get_data`: return `bytes(self._data_buffer)`
and clear the buffer. -/
def get_data (s : PolarH10) : List Nat × PolarH10 :=
  (s.data_buffer, { s with data_buffer := [] })

/-- Does `"Polar H10"` occur in this device name?  Models the test
`device.name and "Polar H10" in device.name` (line 49): a `None` name
never matches, otherwise Python substring containment. -/
def matchesAt : List Char → List Char → Bool
  | [], _ => true
  | _ :: _, [] => false
  | a :: ns, b :: hs => a = b && matchesAt ns hs

/-- Python substring containment `needle in hay`, on character lists. -/
def containsSub (needle : List Char) : List Char → Bool
  | [] => needle.isEmpty
  | b :: hs => matchesAt needle (b :: hs) || containsSub needle hs

/-- The per-device test of the loop on line 49. -/
def deviceNameMatches (d : BLEDevice) : Bool :=
  match d.name with
  | none => false
  | some n => containsSub "Polar H10".toList n.toList

/-- The loop body of `scan_for_device` (lines 48-52): first device whose
name passes `deviceNameMatches`, in list order. -/
def firstMatch : List BLEDevice → Option BLEDevice
  | [] => none
  | d :: ds => if deviceNameMatches d then some d else firstMatch ds

/-- Source lines 43-55, `scan_for_device`: `BleakScanner.discover()` is
modelled by the `devices` argument (the scan result).  On a match the
device is cached in `self.device` and `True` returned; otherwise `False`. -/
def scan_for_device (s : PolarH10) (devices : List BLEDevice) :
    PolarH10 × Bool :=
  match firstMatch devices with
  | some d => ({ s with device := some d }, true)
  | none => (s, false)

/-- Model of `struct.pack("<BB", command, measurement_type)` (line 92):
two unsigned bytes in order, raising (`none`) if a value does not fit. -/
def pack_BB (a b : Nat) : Option (List Nat) :=
  if a < 256 ∧ b < 256 then some [a, b] else none

/-- Source lines 90-93, `_send_command`: pack the 2-byte frame and write
it to the control point.  `writeOk` is the environment outcome of
`write_gatt_char`.  Returns the call events and the propagated error, if
any (pack failure raises before any write is issued). -/
def send_command (writeOk : Bool) (command mtype : Nat) :
    List Event × Option PyError :=
  match pack_BB command mtype with
  | none => ([], some PyError.structError)
  | some payload =>
    ([Event.writeGatt PMD_CONTROL payload],
      if writeOk then none else some (PyError.bleError "write_gatt_char failed"))

/-- Environment outcomes for the two fallible external calls inside
`connect` (lines 64-78), plus the scan result used when no device is
cached. -/
structure ConnectEnv where
  devices : List BLEDevice
  connectOk : Bool
  startNotifyOk : Bool
deriving Repr, DecidableEq

/-- The `try` block of `connect` (lines 64-78), reached once a device is
cached: `self.client = BleakClient(self.device)` stores a fresh
unconnected client; `await self.client.connect()` may raise; then
`start_notify(PMD_DATA, handler)` may raise.  The `except` clause logs
and returns `False`, so exceptions never propagate; on failure the
partially mutated state is kept as-is. -/
def connectAttempt (s : PolarH10) (env : ConnectEnv) :
    PolarH10 × Bool × List Event :=
  let sA := { s with client := some { connected := false, notifying := false } }
  if env.connectOk then
    let sB := { sA with client := some { connected := true, notifying := false } }
    if env.startNotifyOk then
      ({ sB with client := some { connected := true, notifying := true } },
        true, [Event.clientConnect, Event.startNotify PMD_DATA])
    else
      (sB, false, [Event.clientConnect, Event.startNotify PMD_DATA])
  else
    (sA, false, [Event.clientConnect])

/-- Source lines 57-78, `connect`: if no device is cached, scan first and
return `False` on scan failure; otherwise run the connection attempt. -/
def connect (s : PolarH10) (env : ConnectEnv) :
    PolarH10 × Bool × List Event :=
  match s.device with
  | some _ => connectAttempt s env
  | none =>
    match scan_for_device s env.devices with
    | (s1, true) => connectAttempt s1 env
    | (s1, false) => (s1, false, [])

/-- Environment outcomes for the two fallible calls inside `disconnect`
(lines 80-88): `stop_notify` and the transport `disconnect`. -/
structure DiscEnv where
  stopNotifyOk : Bool
  discOk : Bool
deriving Repr, DecidableEq

/-- Source lines 80-88, `disconnect`: a no-op unless a connected client
is held.  One `try` wraps both `stop_notify(PMD_DATA)` and
`self.client.disconnect()`; any exception is caught and logged, so the
caller never sees a failure (third result component, always `false`).
When `stop_notify` raises, control jumps to `except` and the transport
`disconnect()` call is never issued. -/
def disconnect (s : PolarH10) (env : DiscEnv) :
    PolarH10 × List Event × Bool :=
  match s.client with
  | none => (s, [], false)
  | some c =>
    if c.connected then
      if env.stopNotifyOk then
        let s1 := { s with client := some { c with notifying := false } }
        if env.discOk then
          ({ s1 with client := some { connected := false, notifying := false } },
            [Event.stopNotify PMD_DATA, Event.clientDisconnect], false)
        else
          (s1, [Event.stopNotify PMD_DATA, Event.clientDisconnect], false)
      else
        (s, [Event.stopNotify PMD_DATA], false)
    else
      (s, [], false)

/-- Environment outcomes of the two control-point writes issued by
`start_recording`. -/
structure PmdEnv where
  w1 : Bool
  w2 : Bool
deriving Repr, DecidableEq

/-- Source lines 95-114, `start_recording`: raise `ConnectionError` when
no connected client; else clear `self._data_buffer`, send
`REQUEST_MEASUREMENT_SETTINGS`, `asyncio.sleep(0.1)`, send
`START_MEASUREMENT`, set `self.recording = True`.  The `except` clause
logs and re-raises, so a write failure propagates (`some e`) with the
sequence aborted at the failing step. -/
def start_recording (s : PolarH10) (env : PmdEnv) (mtype : Nat) :
    PolarH10 × Option PyError × List Event :=
  if isConnected s then
    let s1 := { s with data_buffer := [] }
    match send_command env.w1 REQUEST_MEASUREMENT_SETTINGS mtype with
    | (ev1, some e) => (s1, some e, ev1)
    | (ev1, none) =>
      match send_command env.w2 START_MEASUREMENT mtype with
      | (ev2, some e) => (s1, some e, ev1 ++ [Event.sleep] ++ ev2)
      | (ev2, none) =>
        ({ s1 with recording := true }, none, ev1 ++ [Event.sleep] ++ ev2)
  else
    (s, some (PyError.connectionError "Not connected to Polar H10"), [])

/-- Source lines 116-127, `stop_recording`: raise `ConnectionError` when
no connected client; else send `STOP_MEASUREMENT` (outcome `writeOk`) and
set `self.recording = False`.  The `except` clause logs and re-raises, so
a write failure propagates and the flag assignment is never reached. -/
def stop_recording (s : PolarH10) (writeOk : Bool) (mtype : Nat) :
    PolarH10 × Option PyError × List Event :=
  if isConnected s then
    match send_command writeOk STOP_MEASUREMENT mtype with
    | (ev, some e) => (s, some e, ev)
    | (ev, none) => ({ s with recording := false }, none, ev)
  else
    (s, some (PyError.connectionError "Not connected to Polar H10"), [])

/-- Delivery of a sequence of notification chunks, in arrival order: fold
of `notification_handler` over the chunks (state part only). -/
def runNotifications (s : PolarH10) (chunks : List (List Nat)) : PolarH10 :=
  chunks.foldl (fun st c => (notification_handler st c).1) s

/-- Concrete states used by closed instances below. -/
def sDev : PolarH10 :=
  { device := some ⟨some "Polar H10 ABCD123"⟩, client := none,
    recording := false, data_buffer := [], notification_callback := false }

def sLive : PolarH10 :=
  { device := some ⟨some "Polar H10 ABCD123"⟩,
    client := some { connected := true, notifying := true },
    recording := false, data_buffer := [], notification_callback := false }

def sRec : PolarH10 :=
  { device := none, client := some { connected := true, notifying := true },
    recording := true, data_buffer := [], notification_callback := false }

end PolarH10

open PolarH10

/-- A `matchesAt` success is exactly a prefix occurrence. -/
theorem matchesAt_iff (n : List Char) :
    ∀ h, matchesAt n h = true ↔ ∃ r, h = n ++ r := by
  induction n with
  | nil => intro h; simp [matchesAt]
  | cons a ns ih =>
    intro h
    cases h with
    | nil => simp [matchesAt]
    | cons b hs =>
      simp only [matchesAt, Bool.and_eq_true, decide_eq_true_eq, ih,
        List.cons_append, List.cons.injEq]
      constructor
      · rintro ⟨rfl, r, rfl⟩; exact ⟨r, rfl, rfl⟩
      · rintro ⟨r, rfl, rfl⟩; exact ⟨rfl, r, rfl⟩

/-- A `containsSub` success is exactly Python substring containment. -/
theorem containsSub_iff (n : List Char) :
    ∀ h, containsSub n h = true ↔ ∃ l r, h = l ++ n ++ r := by
  intro h
  induction h with
  | nil =>
    simp only [containsSub, List.isEmpty_iff]
    constructor
    · rintro rfl; exact ⟨[], [], rfl⟩
    · rintro ⟨l, r, hl⟩
      rcases List.append_eq_nil.mp (hl.symm) with ⟨h1, h2⟩
      rcases List.append_eq_nil.mp h1 with ⟨-, h3⟩
      exact h3
  | cons b hs ih =>
    simp only [containsSub, Bool.or_eq_true, matchesAt_iff, ih]
    constructor
    · rintro (⟨r, hr⟩ | ⟨l, r, hr⟩)
      · exact ⟨[], r, by simpa using hr⟩
      · exact ⟨b :: l, r, by simp [hr]⟩
    · rintro ⟨l, r, hr⟩
      cases l with
      | nil => exact Or.inl ⟨r, by simpa using hr⟩
      | cons c l' =>
        rcases List.cons.injEq .. ▸ hr with ⟨-, h2⟩
        exact Or.inr ⟨l', r, by simpa using List.cons.inj hr |>.2⟩

/-- The scan loop returns the first matching device, as `List.find?`. -/
theorem firstMatch_eq_find (ds : List BLEDevice) :
    firstMatch ds = ds.find? deviceNameMatches := by
  induction ds with
  | nil => rfl
  | cons d ds ih =>
    cases hd : deviceNameMatches d <;> simp [firstMatch, List.find?, hd, ih]

/-- Folding notification delivery only appends to the buffer. -/
theorem runNotifications_eq (chunks : List (List Nat)) (s : PolarH10) :
    runNotifications s chunks =
      { s with data_buffer := s.data_buffer ++ chunks.flatten } := by
  induction chunks generalizing s with
  | nil => simp [runNotifications]
  | cons c cs ih =>
    show runNotifications { s with data_buffer := s.data_buffer ++ c } cs = _
    rw [ih]
    simp [List.flatten]

/-- `stop_recording` never touches the data buffer. -/
theorem stop_recording_buffer (s : PolarH10) (wk : Bool) (mtype : Nat) :
    (stop_recording s wk mtype).1.data_buffer = s.data_buffer := by
  unfold stop_recording
  cases hc : isConnected s
  · simp
  · rcases hsc : send_command wk STOP_MEASUREMENT mtype with ⟨ev, err⟩
    cases err <;> simp [hsc]

/-- Successful `start_recording`: exact resulting state and call trace. -/
theorem start_recording_ok (s : PolarH10) (env : PmdEnv) (mtype : Nat)
    (hconn : isConnected s = true) (hm : mtype < 256)
    (h1 : env.w1 = true) (h2 : env.w2 = true) :
    start_recording s env mtype =
      ({ s with data_buffer := [], recording := true }, none,
        [Event.writeGatt PMD_CONTROL [REQUEST_MEASUREMENT_SETTINGS, mtype],
         Event.sleep,
         Event.writeGatt PMD_CONTROL [START_MEASUREMENT, mtype]]) := by
  simp [start_recording, hconn, send_command, pack_BB, hm, h1, h2,
    REQUEST_MEASUREMENT_SETTINGS, START_MEASUREMENT]

/-- C1: for every sequence of notification chunks delivered after a
(successful) `start_recording`, `get_data` called after `stop_recording`
returns exactly their concatenation in arrival order, and a second
`get_data` with no intervening notifications returns the empty byte
sequence. -/
theorem getData_returns_concatenation (s : PolarH10) (env : PmdEnv)
    (mtype : Nat) (chunks : List (List Nat)) (wk : Bool)
    (hconn : isConnected s = true) (hm : mtype < 256)
    (h1 : env.w1 = true) (h2 : env.w2 = true) :
    (get_data ((stop_recording
        (runNotifications (start_recording s env mtype).1 chunks) wk mtype).1)).1
      = chunks.flatten ∧
    (get_data ((get_data ((stop_recording
        (runNotifications (start_recording s env mtype).1 chunks) wk mtype).1)).2)).1
      = [] := by
  have hs1 : (start_recording s env mtype).1
      = { s with data_buffer := [], recording := true } := by
    rw [start_recording_ok s env mtype hconn hm h1 h2]
  rw [hs1, runNotifications_eq]
  refine ⟨?_, ?_⟩
  · show (stop_recording _ wk mtype).1.data_buffer = _
    rw [stop_recording_buffer]
    simp
  · rfl

/-- C1 witness: a concrete three-chunk session. -/
theorem getData_returns_concatenation_witness :
    (get_data ((stop_recording
        (runNotifications (start_recording sLive ⟨true, true⟩ 0).1
          [[1, 2], [3], [4, 5]]) true 0).1)).1
      = List.flatten [[1, 2], [3], [4, 5]] ∧
    (get_data ((get_data ((stop_recording
        (runNotifications (start_recording sLive ⟨true, true⟩ 0).1
          [[1, 2], [3], [4, 5]]) true 0).1)).2)).1
      = [] :=
  getData_returns_concatenation sLive ⟨true, true⟩ 0 [[1, 2], [3], [4, 5]] true
    rfl (by decide) rfl rfl

/-- C2: `start_recording` on a connected client performs, in order:
clear the buffer, write `[REQUEST_MEASUREMENT_SETTINGS, mtype]`, sleep,
write `[START_MEASUREMENT, mtype]`, set the recording flag; a failure of
either write aborts the sequence there, propagates the error, and (the
flag being false beforehand) leaves the recording flag false. -/
theorem start_recording_sequence (s : PolarH10) (env : PmdEnv) (mtype : Nat)
    (hconn : isConnected s = true) (hm : mtype < 256)
    (hrec : s.recording = false) :
    (env.w1 = true → env.w2 = true →
      start_recording s env mtype =
        ({ s with data_buffer := [], recording := true }, none,
          [Event.writeGatt PMD_CONTROL [REQUEST_MEASUREMENT_SETTINGS, mtype],
           Event.sleep,
           Event.writeGatt PMD_CONTROL [START_MEASUREMENT, mtype]])) ∧
    (env.w1 = false →
      (∃ e, (start_recording s env mtype).2.1 = some e) ∧
      (start_recording s env mtype).1.recording = false ∧
      (start_recording s env mtype).2.2 =
        [Event.writeGatt PMD_CONTROL [REQUEST_MEASUREMENT_SETTINGS, mtype]]) ∧
    (env.w1 = true → env.w2 = false →
      (∃ e, (start_recording s env mtype).2.1 = some e) ∧
      (start_recording s env mtype).1.recording = false ∧
      (start_recording s env mtype).2.2 =
        [Event.writeGatt PMD_CONTROL [REQUEST_MEASUREMENT_SETTINGS, mtype],
         Event.sleep,
         Event.writeGatt PMD_CONTROL [START_MEASUREMENT, mtype]]) := by
  refine ⟨fun h1 h2 => start_recording_ok s env mtype hconn hm h1 h2, ?_, ?_⟩
  · intro h1
    simp [start_recording, hconn, send_command, pack_BB, hm, h1, hrec,
      REQUEST_MEASUREMENT_SETTINGS]
  · intro h1 h2
    simp [start_recording, hconn, send_command, pack_BB, hm, h1, h2, hrec,
      REQUEST_MEASUREMENT_SETTINGS, START_MEASUREMENT]

/-- C2 witness: successful sequence at a connected state. -/
theorem start_recording_sequence_witness :
    start_recording sLive ⟨true, true⟩ 0 =
      ({ sLive with data_buffer := [], recording := true }, none,
        [Event.writeGatt PMD_CONTROL [REQUEST_MEASUREMENT_SETTINGS, 0],
         Event.sleep,
         Event.writeGatt PMD_CONTROL [START_MEASUREMENT, 0]]) :=
  (start_recording_sequence sLive ⟨true, true⟩ 0 rfl (by decide) rfl).1 rfl rfl

/-- C3: for each of the three commands and four measurement types,
`_send_command` issues exactly the 2-byte payload `[command, mtype]`,
command byte first, to the control-point characteristic. -/
theorem send_command_exact_payload (c m : Nat) (wk : Bool)
    (hc : c = REQUEST_MEASUREMENT_SETTINGS ∨ c = START_MEASUREMENT ∨
      c = STOP_MEASUREMENT)
    (hm : m = ECG_MEASUREMENT ∨ m = PPG_MEASUREMENT ∨ m = ACC_MEASUREMENT ∨
      m = HR_MEASUREMENT) :
    (send_command wk c m).1 = [Event.writeGatt PMD_CONTROL [c, m]] := by
  rcases hc with rfl | rfl | rfl <;> rcases hm with rfl | rfl | rfl | rfl <;> rfl

/-- C3 witness: STOP of the heart-rate stream. -/
theorem send_command_exact_payload_witness :
    (send_command true STOP_MEASUREMENT HR_MEASUREMENT).1 =
      [Event.writeGatt PMD_CONTROL [STOP_MEASUREMENT, HR_MEASUREMENT]] :=
  send_command_exact_payload STOP_MEASUREMENT HR_MEASUREMENT true
    (Or.inr (Or.inr rfl)) (Or.inr (Or.inr (Or.inr rfl)))

/-- C4 counterexample: with the transport connect succeeding and the
notification subscription failing, `connect` returns the failure result
but the state it leaves behind still holds a connected client — the
partial state is not torn down. -/
theorem connect_no_teardown_cex :
    (connect sDev ⟨[], true, false⟩).2.1 = false ∧
    isConnected (connect sDev ⟨[], true, false⟩).1 = true := by
  decide

/-- C4 amended: whenever `connect` fails it returns a failure result, but
partial state is kept, not torn down: the freshly built client stays
stored, and after a subscription failure the GATT link remains
connected. -/
theorem connect_failure_keeps_partial_state (s : PolarH10) (env : ConnectEnv)
    (hdev : s.device ≠ none) :
    (env.connectOk = false →
      (connect s env).2.1 = false ∧
      (connect s env).1.client =
        some { connected := false, notifying := false }) ∧
    (env.connectOk = true → env.startNotifyOk = false →
      (connect s env).2.1 = false ∧
      (connect s env).1.client =
        some { connected := true, notifying := false } ∧
      isConnected (connect s env).1 = true) := by
  obtain ⟨d, hd⟩ := Option.ne_none_iff_exists'.mp hdev
  constructor
  · intro hc
    simp [connect, hd, connectAttempt, hc]
  · intro hc hn
    simp [connect, hd, connectAttempt, hc, hn, isConnected]

/-- C4 amended witness: subscription failure at a cached device. -/
theorem connect_failure_keeps_partial_state_witness :
    (connect sDev ⟨[], true, false⟩).2.1 = false ∧
    (connect sDev ⟨[], true, false⟩).1.client =
      some { connected := true, notifying := false } ∧
    isConnected (connect sDev ⟨[], true, false⟩).1 = true :=
  (connect_failure_keeps_partial_state sDev ⟨[], true, false⟩
    (by decide)).2 rfl rfl

/-- C5: `disconnect` never lets a failure propagate to the caller, is a
no-op when never connected or already disconnected, and a second call
right after a fully successful one is a no-op as well. -/
theorem disconnect_idempotent_no_raise (s : PolarH10) (env env2 : DiscEnv) :
    (disconnect s env).2.2 = false ∧
    (s.client = none → disconnect s env = (s, [], false)) ∧
    (∀ c, s.client = some c → c.connected = false →
      disconnect s env = (s, [], false)) ∧
    (env.stopNotifyOk = true → env.discOk = true →
      disconnect (disconnect s env).1 env2 = ((disconnect s env).1, [], false)) := by
  refine ⟨?_, ?_, ?_, ?_⟩
  · cases hcl : s.client with
    | none => simp [disconnect, hcl]
    | some c =>
      cases hcc : c.connected <;> cases h1 : env.stopNotifyOk <;>
        cases h2 : env.discOk <;> simp [disconnect, hcl, hcc, h1, h2]
  · intro hcl; simp [disconnect, hcl]
  · intro c hcl hcc; simp [disconnect, hcl, hcc]
  · intro h1 h2
    cases hcl : s.client with
    | none => simp [disconnect, hcl]
    | some c =>
      cases hcc : c.connected <;> simp [disconnect, hcl, hcc, h1, h2]

/-- C5 witness: a second disconnect right after a successful one. -/
theorem disconnect_idempotent_no_raise_witness :
    disconnect (disconnect sLive ⟨true, true⟩).1 ⟨true, true⟩ =
      ((disconnect sLive ⟨true, true⟩).1, [], false) :=
  (disconnect_idempotent_no_raise sLive ⟨true, true⟩ ⟨true, true⟩).2.2.2 rfl rfl

/-- C6 counterexample: on a live connection, when `stop_notify` fails,
`disconnect` returns after the unsubscribe call only — the transport
close (`Event.clientDisconnect`) is never issued, contrary to the claim
that the close still happens. -/
theorem disconnect_skips_close_cex :
    isConnected sLive = true ∧
    (disconnect sLive ⟨false, true⟩).2.1 = [Event.stopNotify PMD_DATA] ∧
    Event.clientDisconnect ∉ (disconnect sLive ⟨false, true⟩).2.1 := by
  decide

/-- C6 amended: when `disconnect` is called on a live connection and the
notification-unsubscribe step fails, the exception handler wrapping both
steps catches it (nothing propagates), the state is left as it was, and
the transport close is skipped, not attempted. -/
theorem disconnect_unsubscribe_failure_skips_close (s : PolarH10)
    (c : BleakClient) (env : DiscEnv) (hcl : s.client = some c)
    (hcc : c.connected = true) (hn : env.stopNotifyOk = false) :
    disconnect s env = (s, [Event.stopNotify PMD_DATA], false) ∧
    Event.clientDisconnect ∉ (disconnect s env).2.1 := by
  have h : disconnect s env = (s, [Event.stopNotify PMD_DATA], false) := by
    simp [disconnect, hcl, hcc, hn]
  exact ⟨h, by rw [h]; simp⟩

/-- C6 amended witness. -/
theorem disconnect_unsubscribe_failure_skips_close_witness :
    disconnect sLive ⟨false, true⟩ = (sLive, [Event.stopNotify PMD_DATA], false) ∧
    Event.clientDisconnect ∉ (disconnect sLive ⟨false, true⟩).2.1 :=
  disconnect_unsubscribe_failure_skips_close sLive
    { connected := true, notifying := true } ⟨false, true⟩ rfl rfl rfl

/-- C7 counterexample: on a connected client with the recording flag
true, a failing STOP write makes `stop_recording` raise and leave the
flag true — contradicting "after any stop_recording call issued while
connected, the recording flag is false". -/
theorem stop_recording_flag_cex :
    isConnected sRec = true ∧ sRec.recording = true ∧
    (stop_recording sRec false ECG_MEASUREMENT).1.recording = true ∧
    (stop_recording sRec false ECG_MEASUREMENT).2.1 ≠ none := by
  decide

/-- C7 amended: `stop_recording` fails when not connected; when connected
it sends STOP and, if the send succeeds, marks the recording flag false
regardless of its prior state; if the send fails the error propagates and
the whole state (flag included) keeps its prior value. -/
theorem stop_recording_spec (s : PolarH10) (wk : Bool) (mtype : Nat)
    (hm : mtype < 256) :
    (isConnected s = false →
      stop_recording s wk mtype =
        (s, some (PyError.connectionError "Not connected to Polar H10"), [])) ∧
    (isConnected s = true → wk = true →
      stop_recording s wk mtype =
        ({ s with recording := false }, none,
          [Event.writeGatt PMD_CONTROL [STOP_MEASUREMENT, mtype]])) ∧
    (isConnected s = true → wk = false →
      (stop_recording s wk mtype).1 = s ∧
      ∃ e, (stop_recording s wk mtype).2.1 = some e) := by
  refine ⟨?_, ?_, ?_⟩
  · intro hc; simp [stop_recording, hc]
  · intro hc hw
    simp [stop_recording, hc, hw, send_command, pack_BB, hm, STOP_MEASUREMENT]
  · intro hc hw
    simp [stop_recording, hc, hw, send_command, pack_BB, hm, STOP_MEASUREMENT]

/-- C7 amended witness: the failing-write branch at a concrete state. -/
theorem stop_recording_spec_witness :
    (stop_recording sRec false 0).1 = sRec ∧
    ∃ e, (stop_recording sRec false 0).2.1 = some e :=
  (stop_recording_spec sRec false 0 (by decide)).2.2 rfl rfl

/-- C8: `scan_for_device` returns (and caches) the first device of the
scan list whose advertised name contains the substring "Polar H10", and
reports failure exactly when no device name contains it; the name test is
literal substring containment. -/
theorem scan_for_device_spec (s : PolarH10) (devices : List BLEDevice) :
    (∀ d, devices.find? deviceNameMatches = some d →
      scan_for_device s devices = ({ s with device := some d }, true)) ∧
    (devices.find? deviceNameMatches = none →
      scan_for_device s devices = (s, false)) ∧
    (∀ d, deviceNameMatches d = true ↔
      ∃ n l r, d.name = some n ∧ n.toList = l ++ "Polar H10".toList ++ r) := by
  refine ⟨?_, ?_, ?_⟩
  · intro d hd; simp [scan_for_device, firstMatch_eq_find, hd]
  · intro hd; simp [scan_for_device, firstMatch_eq_find, hd]
  · intro d
    cases d with
    | mk name =>
      cases name with
      | none => simp [deviceNameMatches]
      | some n =>
        simp only [deviceNameMatches, containsSub_iff, Option.some.injEq]
        constructor
        · rintro ⟨l, r, hr⟩; exact ⟨n, l, r, rfl, hr⟩
        · rintro ⟨n', l, r, rfl, hr⟩; exact ⟨l, r, hr⟩

/-- C8 witness: a scan list whose third entry is the only match. -/
theorem scan_for_device_spec_witness :
    scan_for_device PolarH10.init
        [⟨some "Other Sensor"⟩, ⟨none⟩, ⟨some "Polar H10 ABCD123"⟩] =
      ({ PolarH10.init with device := some ⟨some "Polar H10 ABCD123"⟩ }, true) :=
  (scan_for_device_spec PolarH10.init
    [⟨some "Other Sensor"⟩, ⟨none⟩, ⟨some "Polar H10 ABCD123"⟩]).1
    ⟨some "Polar H10 ABCD123"⟩ (by decide)

/-- C9: `start_recording` while not connected raises `ConnectionError`
and returns the state fully unchanged — buffer not cleared, recording
flag untouched — and issues no external call. -/
theorem start_recording_not_connected (s : PolarH10) (env : PmdEnv)
    (mtype : Nat) (h : isConnected s = false) :
    start_recording s env mtype =
      (s, some (PyError.connectionError "Not connected to Polar H10"), []) := by
  simp [start_recording, h]

/-- C9 witness: a fresh instance is not connected. -/
theorem start_recording_not_connected_witness :
    start_recording PolarH10.init ⟨true, true⟩ 0 =
      (PolarH10.init,
        some (PyError.connectionError "Not connected to Polar H10"), []) :=
  start_recording_not_connected PolarH10.init ⟨true, true⟩ 0 rfl

/-- C10: the notification handler appends the incoming bytes and invokes
the registered sink unconditionally — the recording flag plays no role —
and a chunk delivered after `stop_recording` (successful or not) is still
appended and shows up in the next `get_data` result. -/
theorem notification_handler_unconditional (s : PolarH10) (data : List Nat)
    (mtype : Nat) (wk : Bool) (b : Bool) :
    ((notification_handler s data).1 =
      { s with data_buffer := s.data_buffer ++ data }) ∧
    ((notification_handler s data).2 =
      if s.notification_callback then [Event.sinkCall data] else []) ∧
    (notification_handler { s with recording := b } data =
      ({ s with recording := b, data_buffer := s.data_buffer ++ data },
        if s.notification_callback then [Event.sinkCall data] else [])) ∧
    ((get_data ((notification_handler ((stop_recording s wk mtype).1) data).1)).1
      = s.data_buffer ++ data) := by
  refine ⟨rfl, rfl, rfl, ?_⟩
  show ((stop_recording s wk mtype).1).data_buffer ++ data = _
  rw [stop_recording_buffer]

end PolarSpec
